import Mathlib

/-!
# Verification of the snowball SLR core (engine + store + duplicate predicate)

Shallow embedding of the core of the `snowball` repository:

* `src/snowball/models.py` — data model (`Paper`, `ReviewProject`, enums),
* `src/snowball/paper_utils.py` — the duplicate predicate and similarity metrics,
* `src/snowball/storage/json_storage.py` — the write-behind JSON store,
* `src/snowball/snowballing.py` — the snowball engine.

Python values are embedded as follows: optional strings/ints are `Option String`
/ `Option Int`; Python truthiness (`if x:`) on those is made explicit
(`none`/`""`/`0` are falsy); Python `dict`s (which preserve insertion order,
updates keeping the original slot) are insertion-ordered association lists;
Python `set`s of strings are membership-checked lists; floats produced by the
similarity metrics are embedded as `ℚ` (every value the code can produce is a
ratio of two natural numbers, and all comparisons are against the rational
thresholds 0.85 / 0.3, so `ℚ` is exact for this code); exceptions are embedded
as `Option`/early-exit: an uncaught exception is `none`, an exception caught by
a `try`/`except` block ends the embedded block early, keeping the side effects
made before the raise.

Wall-clock fields (`review_date`, `updated_at`, `timestamp`) and display-only
fields are not part of any claim and are omitted from the embedded records.
-/

namespace Snowball

/-! ## Data model (`models.py`) -/

/-- `PaperStatus` from `models.py` (note the fourth value `MAYBE`,
which exists in the code). -/
inductive PaperStatus where
  | pending
  | included
  | excluded
  | maybe
deriving DecidableEq, Repr

/-- `PaperSource` from `models.py`. -/
inductive PaperSource where
  | seed
  | backward
  | forward
deriving DecidableEq, Repr

/-- `ExclusionType` from `models.py`. -/
inductive ExclusionType where
  | auto
  | manual
deriving DecidableEq, Repr

/-- `Author` from `models.py` (affiliations are display-only and omitted). -/
structure Author where
  name : String
deriving DecidableEq, Repr

/-- `Paper` from `models.py`.  Fields that no embedded operation reads
(`pmid`, `semantic_scholar_id`, `openalex_id`, `influential_citation_count`,
`venue`, `references`, `citations`, `review_date`, `pdf_path`,
`references_unavailable`, `raw_data`) are omitted; the GROBID data held in
`raw_data` only feeds `_get_references_for_paper`, which is abstracted into
the environment (see `Env`).  Note that `models.Paper` declares
`source_paper_ids : List[str]` and has **no** field `source_paper_id`. -/
structure Paper where
  id : String
  doi : Option String := none
  arxiv_id : Option String := none
  title : String
  authors : List Author := []
  year : Option Int := none
  abstract : Option String := none
  citation_count : Option Int := none
  status : PaperStatus := .pending
  source : PaperSource
  source_paper_ids : List String := []
  snowball_iteration : Int := 0
  exclusion_type : Option ExclusionType := none
  notes : String := ""
  tags : List String := []
  observation_count : Int := 1
deriving DecidableEq, Repr

/-- `FilterCriteria` from `models.py` (the keyword/venue lists are consumed
only by the filter engine, whose source is not in the tree; see
`apply_filters`). -/
structure FilterCriteria where
  min_year : Option Int := none
  max_year : Option Int := none
  min_citations : Option Int := none
  max_citations : Option Int := none
  keywords : List String := []
  excluded_keywords : List String := []
deriving DecidableEq, Repr

/-- `IterationStats` from `models.py` (timestamp omitted). -/
structure IterationStats where
  iteration : Int
  discovered : Int := 0
  backward : Int := 0
  forward : Int := 0
  auto_excluded : Int := 0
  for_review : Int := 0
  manual_included : Int := 0
  manual_excluded : Int := 0
  manual_maybe : Int := 0
  reviewed : Int := 0
deriving DecidableEq, Repr

/-- `ReviewProject` from `models.py` (creation/update timestamps and the
display-only `description`/`total_papers`/`papers_by_status` fields omitted). -/
structure ReviewProject where
  name : String
  filter_criteria : FilterCriteria := {}
  seed_paper_ids : List String := []
  current_iteration : Int := 0
  iteration_stats : List (Int × IterationStats) := []
deriving DecidableEq, Repr

/-- Python truthiness of an optional string: `None` and `""` are falsy. -/
def optStrTruthy : Option String → Bool
  | none => false
  | some s => !s.isEmpty

/-- Python truthiness of an optional int: `None` and `0` are falsy. -/
def optIntTruthy : Option Int → Bool
  | none => false
  | some n => n != 0

/-! ## Python string primitives

The `String` functions of the Lean core library (`String.split`,
`String.splitOn`, `String.toLower`, ...) are defined by well-founded recursion
on byte positions and do not reduce inside the kernel, so the Python string
operations used by `paper_utils.py` are embedded here as structurally
recursive functions on `List Char` (a Lean `String` is exactly a list of
unicode code points).  All inputs relevant to the claims are plain text, for
which these agree with Python's `str` semantics. -/

/-- Python `s.lower()` (ASCII case folding, which covers every comparison the
code performs on DOIs, arXiv ids, titles and author names). -/
def pyLower (s : List Char) : List Char := s.map Char.toLower

/-- Helper for `pySplitWs`: accumulates the current word (reversed). -/
def pySplitWsAux : List Char → List Char → List (List Char)
  | [], acc => if acc.isEmpty then [] else [acc.reverse]
  | c :: rest, acc =>
    if c.isWhitespace then
      if acc.isEmpty then pySplitWsAux rest []
      else acc.reverse :: pySplitWsAux rest []
    else pySplitWsAux rest (c :: acc)

/-- Python `s.split()` with no argument: split on whitespace runs, discarding
empty pieces. -/
def pySplitWs (s : List Char) : List (List Char) := pySplitWsAux s []

/-- Python `s.split(sep)` for a one-character separator (the code only ever
splits on `","` and `"v"`).  `"".split(sep) == [""]`. -/
def pySplitOn (sep : Char) : List Char → List (List Char)
  | [] => [[]]
  | c :: rest =>
    if c = sep then [] :: pySplitOn sep rest
    else
      match pySplitOn sep rest with
      | [] => [[c]]
      | w :: ws => (c :: w) :: ws

/-- Python `s.strip()`: remove leading and trailing whitespace. -/
def pyStrip (s : List Char) : List Char :=
  ((s.dropWhile Char.isWhitespace).reverse.dropWhile Char.isWhitespace).reverse

/-- Python `s.rstrip(c)` for a single character. -/
def pyRstrip (c : Char) (s : List Char) : List Char :=
  (s.reverse.dropWhile (fun d => d = c)).reverse

/-! ## Duplicate predicate and similarity metrics (`paper_utils.py`) -/

/-- `TITLE_STOPWORDS` from `paper_utils.py`. -/
def TITLE_STOPWORDS : List (List Char) :=
  [['a'], ['a', 'n'], ['t', 'h', 'e'], ['o', 'f'], ['i', 'n'], ['o', 'n'],
   ['f', 'o', 'r'], ['t', 'o'], ['a', 'n', 'd'], ['o', 'r'],
   ['w', 'i', 't', 'h'], ['b', 'y'], ['a', 't'], ['f', 'r', 'o', 'm']]

/-- The set of words `set(title.lower().split()) - TITLE_STOPWORDS` built by
`title_similarity`, embedded as a duplicate-free list. -/
def titleWords (title : String) : List (List Char) :=
  ((pySplitWs (pyLower title.data)).dedup).filter
    (fun w => !TITLE_STOPWORDS.contains w)

/-- Cardinality of the intersection of two Python sets embedded as
duplicate-free lists. -/
def interCard (xs ys : List (List Char)) : Nat :=
  (xs.filter (fun x => ys.contains x)).length

/-- Cardinality of the union of two Python sets embedded as duplicate-free
lists. -/
def unionCard (xs ys : List (List Char)) : Nat :=
  (xs ++ ys).dedup.length

/-- The `(intersection, union)` cardinality pair computed by
`title_similarity` from `paper_utils.py:212`, with `none` in the cases where
the code returns `0.0` without dividing (an empty title or an empty word
set). -/
def titleSimFrac (title1 title2 : String) : Option (Nat × Nat) :=
  if title1.data.isEmpty || title2.data.isEmpty then none
  else
    let words1 := titleWords title1
    let words2 := titleWords title2
    if words1.isEmpty || words2.isEmpty then none
    else some (interCard words1 words2, unionCard words1 words2)

/-- The similarity value denoted by a cardinality pair:
`intersection / union if union > 0 else 0.0`, and `0.0` for the
degenerate (`none`) cases. -/
def fracVal : Option (Nat × Nat) → ℚ
  | none => 0
  | some (i, u) => if u > 0 then (i : ℚ) / (u : ℚ) else 0

/-- Whether the similarity denoted by a cardinality pair is below the
threshold `thNum / thDen` — the comparison `sim < threshold` performed by
`papers_are_duplicates`, computed on naturals by cross-multiplication so that
it evaluates inside the kernel.  `fracLt_iff` proves it agrees with the
comparison of the rational values. -/
def fracLt (f : Option (Nat × Nat)) (thNum thDen : Nat) : Bool :=
  match f with
  | none => 0 < thNum
  | some (i, u) => if u > 0 then i * thDen < thNum * u else 0 < thNum

/-- `title_similarity` from `paper_utils.py:212`: Jaccard similarity of the
stop-word-filtered lower-cased word sets of the two titles. -/
def title_similarity (title1 title2 : String) : ℚ :=
  fracVal (titleSimFrac title1 title2)

/-- `normalize_author_name` from `paper_utils.py:254`: the part before the
first comma (stripped) when the name contains a comma, else the last
whitespace-separated word of the stripped name; lower-cased. -/
def normalize_author_name (name : String) : String :=
  if name.data.isEmpty then ""
  else if name.data.contains ',' then
    ⟨pyLower (pyStrip ((pySplitOn ',' name.data).headD []))⟩
  else
    match pySplitWs (pyStrip name.data) with
    | [] => ""
    | parts => ⟨pyLower (parts.getLastD [])⟩

/-- The set of non-empty normalized author names built by
`authors_similarity` (empty normalized names are removed), embedded as a
duplicate-free list. -/
def authorNames (authors : List Author) : List (List Char) :=
  ((authors.map (fun a => (normalize_author_name a.name).data)).dedup).filter
    (fun n => !n.isEmpty)

/-- The `(intersection, union)` cardinality pair computed by
`authors_similarity` from `paper_utils.py:278`, with `none` in the cases
where the code returns `0.0` without dividing (an empty author list or an
all-empty name set). -/
def authorsSimFrac (authors1 authors2 : List Author) : Option (Nat × Nat) :=
  if authors1.isEmpty || authors2.isEmpty then none
  else
    let names1 := authorNames authors1
    let names2 := authorNames authors2
    if names1.isEmpty || names2.isEmpty then none
    else some (interCard names1 names2, unionCard names1 names2)

/-- `authors_similarity` from `paper_utils.py:278`: Jaccard similarity over
normalized last names, with empty lists or all-empty name sets scoring 0. -/
def authors_similarity (authors1 authors2 : List Author) : ℚ :=
  fracVal (authorsSimFrac authors1 authors2)

/-- arXiv id normalization inside `papers_are_duplicates`:
`arxiv_id.lower().split('v')[0].rstrip('.')`. -/
def arxivNorm (s : String) : List Char :=
  pyRstrip '.' ((pySplitOn 'v' (pyLower s.data)).headD [])

/-- `papers_are_duplicates` from `paper_utils.py:316` with the default
thresholds (`title_threshold = 0.85`, `author_threshold = 0.3`,
`year_tolerance = 1`).  Logging calls have no embedded effect.  The two
threshold tests are the source's `title_sim < 0.85` and
`author_sim < 0.3` computed via `fracLt`; `titleSim_lt_iff` and
`authorsSim_lt_iff` prove they equal the comparisons on the similarity
values. -/
def papers_are_duplicates (paper1 paper2 : Paper) : Bool :=
  if optStrTruthy paper1.doi && optStrTruthy paper2.doi then
    pyLower (paper1.doi.getD "").data == pyLower (paper2.doi.getD "").data
  else if optStrTruthy paper1.arxiv_id && optStrTruthy paper2.arxiv_id then
    arxivNorm (paper1.arxiv_id.getD "") == arxivNorm (paper2.arxiv_id.getD "")
  else if paper1.title.data.isEmpty || paper2.title.data.isEmpty then false
  else if fracLt (titleSimFrac paper1.title paper2.title) 85 100 then false
  else if optIntTruthy paper1.year && optIntTruthy paper2.year &&
      ((paper1.year.getD 0) - (paper2.year.getD 0)).natAbs > 1 then false
  else if !paper1.authors.isEmpty && !paper2.authors.isEmpty &&
      fracLt (authorsSimFrac paper1.authors paper2.authors) 3 10 then
    false
  else true

/-! ## Paper store (`storage/json_storage.py`)

`JSONStorage` holds an optional in-memory cache (`_papers_cache`, `None`
until first populated by `load_all_papers`), an unbounded FIFO write queue
drained by one background thread, the `papers/{id}.json` files on disk, the
`papers.json` index file and the `project.json` file.  Python dicts preserve
insertion order (updates keep the original slot) and are embedded as
association lists; the glob order of `load_all_papers` is embedded as the
disk list's order.  Background writes are explicit steps (`writerStep`); no
background step happens inside an embedded operation, so an interleaved
drain is modelled as happening before or after it. -/

/-- Insertion-ordered dictionary update, as for a Python `dict`: an existing
key keeps its slot, a new key is appended. -/
def dictInsert (m : List (String × Paper)) (k : String) (v : Paper) :
    List (String × Paper) :=
  if m.any (fun kv => kv.1 == k) then
    m.map (fun kv => if kv.1 == k then (k, v) else kv)
  else m ++ [(k, v)]

/-- Dictionary lookup. -/
def dictLookup (m : List (String × Paper)) (k : String) : Option Paper :=
  (m.find? (fun kv => kv.1 == k)).map (fun kv => kv.2)

/-- One entry of the `papers.json` index file
(`_update_papers_index`): a small projection of a paper. -/
structure IndexEntry where
  title : String
  year : Option Int
  status : PaperStatus
  source : PaperSource
  doi : Option String
  citation_count : Option Int
deriving DecidableEq, Repr

/-- The projection stored in the index file. -/
def indexProj (p : Paper) : IndexEntry :=
  { title := p.title, year := p.year, status := p.status, source := p.source,
    doi := p.doi, citation_count := p.citation_count }

/-- The state of one `JSONStorage` instance plus its project directory. -/
structure StoreState where
  cache : Option (List (String × Paper))
  queue : List Paper
  disk : List (String × Paper)
  index : List (String × IndexEntry)
  project_file : Option ReviewProject
deriving DecidableEq, Repr

/-- `JSONStorage.save_paper` (`json_storage.py:100`): update the cache
(only when it has been initialised — the code guards with
`if self._papers_cache is not None`), then enqueue the disk write. -/
def save_paper (st : StoreState) (p : Paper) : StoreState :=
  { st with
    cache := st.cache.map (fun m => dictInsert m p.id p),
    queue := st.queue ++ [p] }

/-- One step of the background writer thread (`_writer_loop`): pop the
oldest queued paper and write `papers/{id}.json`. -/
def writerStep (st : StoreState) : StoreState :=
  match st.queue with
  | [] => st
  | p :: rest => { st with queue := rest, disk := dictInsert st.disk p.id p }

/-- Iterated background writes for `flush`. -/
def flushAux : List Paper → List (String × Paper) → List (String × Paper)
  | [], disk => disk
  | p :: rest, disk => flushAux rest (dictInsert disk p.id p)

/-- `JSONStorage.flush` (`json_storage.py:71`): block until every queued
write has been committed. -/
def flush (st : StoreState) : StoreState :=
  { st with queue := [], disk := flushAux st.queue st.disk }

/-- `JSONStorage.save_project` (`json_storage.py:85`): written directly to
`project.json` (not on the async path; the `updated_at` timestamp is
omitted). -/
def save_project (st : StoreState) (project : ReviewProject) : StoreState :=
  { st with project_file := some project }

/-- `JSONStorage.load_project` (`json_storage.py:91`). -/
def load_project (st : StoreState) : Option ReviewProject :=
  st.project_file

/-- `JSONStorage.load_paper` (`json_storage.py:147`): cache hit first; else
read `papers/{id}.json`, inserting the result into the cache only when the
cache exists. -/
def load_paper (st : StoreState) (paper_id : String) :
    StoreState × Option Paper :=
  match st.cache with
  | some m =>
    match dictLookup m paper_id with
    | some p => (st, some p)
    | none =>
      match dictLookup st.disk paper_id with
      | none => (st, none)
      | some p => ({ st with cache := some (dictInsert m paper_id p) }, some p)
  | none =>
    match dictLookup st.disk paper_id with
    | none => (st, none)
    | some p => (st, some p)

/-- `JSONStorage.load_all_papers` (`json_storage.py:167`): served from the
cache when initialised, else populate the cache from the `papers/*.json`
files (keyed by the id stored in each file). -/
def load_all_papers (st : StoreState) : StoreState × List Paper :=
  match st.cache with
  | some m => (st, m.map (fun kv => kv.2))
  | none =>
    let m := st.disk.foldl (fun acc kv => dictInsert acc kv.2.id kv.2) []
    ({ st with cache := some m }, m.map (fun kv => kv.2))

/-- `JSONStorage.get_papers_by_status` (`json_storage.py:187`). -/
def get_papers_by_status (st : StoreState) (status : PaperStatus) :
    StoreState × List Paper :=
  let (st', papers) := load_all_papers st
  (st', papers.filter (fun p => p.status == status))

/-- `JSONStorage.get_papers_by_iteration` (`json_storage.py:191`). -/
def get_papers_by_iteration (st : StoreState) (iteration : Int) :
    StoreState × List Paper :=
  let (st', papers) := load_all_papers st
  (st', papers.filter (fun p => p.snowball_iteration == iteration))

/-- `JSONStorage.find_duplicate_paper` (`json_storage.py:245`): linear scan
of all papers, first fuzzy match wins. -/
def find_duplicate_paper (st : StoreState) (paper : Paper) :
    StoreState × Option Paper :=
  let (st', papers) := load_all_papers st
  (st', papers.find? (fun existing => papers_are_duplicates paper existing))

/-- `JSONStorage.update_paper_status` (`json_storage.py:195`; the
wall-clock `review_date` is omitted).  Note that it does not touch
`exclusion_type`. -/
def update_paper_status (st : StoreState) (paper_id : String)
    (status : PaperStatus) (notes : String) : StoreState :=
  match load_paper st paper_id with
  | (st1, some paper) =>
    save_paper st1 { paper with status := status, notes := notes }
  | (st1, none) => st1

/-- `JSONStorage._update_papers_index` (`json_storage.py:121`): rebuild the
`papers.json` index from all loaded papers plus the batch being saved. -/
def updatePapersIndex (st : StoreState) (papers : List Paper) : StoreState :=
  let (st', existing) := load_all_papers st
  let byId := existing.foldl (fun acc p => dictInsert acc p.id p) []
  let byId := papers.foldl (fun acc p => dictInsert acc p.id p) byId
  { st' with index := byId.map (fun kv => (kv.1, indexProj kv.2)) }

/-- `JSONStorage.save_papers` (`json_storage.py:113`): save each paper, then
update the index file. -/
def save_papers (st : StoreState) (papers : List Paper) : StoreState :=
  updatePapersIndex (papers.foldl save_paper st) papers

/-! ## Filter engine -/

/-- Modelled from the spec: the source file `src/snowball/filters/filter_engine.py`
is imported by the engine (`from .filters.filter_engine import FilterEngine`)
and exercised by `tests/filters/test_filter_engine.py`, but is absent from
the repository tree.  Spec §2/§6 describe it as "accepts a batch of candidate
papers and inclusion criteria, returns the subset that passes" over the
"year/citation/keyword bounds" of `filter_criteria`, total (no failure
path).  Keyword/venue matching is not specified in detail and no claim
reaches the filter with non-empty keyword criteria, so only the year and
citation bounds are modelled; with empty criteria every paper passes, as
spec scenario 1 requires. -/
def paperPassesFilters (criteria : FilterCriteria) (p : Paper) : Bool :=
  (match criteria.min_year with
   | none => true
   | some m => match p.year with | none => false | some y => m ≤ y) &&
  (match criteria.max_year with
   | none => true
   | some m => match p.year with | none => false | some y => y ≤ m) &&
  (match criteria.min_citations with
   | none => true
   | some m => match p.citation_count with | none => false | some c => m ≤ c) &&
  (match criteria.max_citations with
   | none => true
   | some m => match p.citation_count with | none => false | some c => c ≤ m)

/-- Modelled from the spec: `FilterEngine.apply_filters` — the subset of the
batch that passes the criteria, in order (see `paperPassesFilters`). -/
def apply_filters (papers : List Paper) (criteria : FilterCriteria) :
    List Paper :=
  papers.filter (paperPassesFilters criteria)

/-! ## Snowball engine (`snowballing.py`) -/

/-- The engine's collaborators.  `get_references` models the outcome of
`SnowballEngine._get_references_for_paper` (the GROBID-extracted reference
records attached to the paper when present, else
`APIAggregator.get_references` — both produce a list of `Paper` records);
`get_citations` models `APIAggregator.get_citations`.  `Except.error ()` is
a raised exception, caught per (frontier paper, direction) by the engine. -/
structure Env where
  get_references : Paper → Except Unit (List Paper)
  get_citations : Paper → Except Unit (List Paper)

/-- The `direction` argument of `run_snowball_iteration`. -/
inductive Direction where
  | backward
  | forward
  | both
deriving DecidableEq, Repr

/-- The dictionary returned by `run_snowball_iteration`.  The early
no-frontier return (`snowballing.py:152`) carries only the first three
keys; the keys it omits are `none` here. -/
structure IterResult where
  added : Nat
  backward : Nat
  forward : Nat
  auto_excluded : Option Nat
  for_review : Option Nat
  merged : Option Nat
  merged_papers : Option (List Paper)
deriving DecidableEq, Repr

/-- The `f"doi:{...}"` key of the `seen_identifiers` set. -/
def doiKey (doi : String) : List Char :=
  "doi:".data ++ pyLower doi.data

/-- The `f"title:{...}"` key of the `seen_identifiers` set. -/
def titleKey (title : String) : List Char :=
  "title:".data ++ pyLower title.data

/-- Python `set.add`. -/
def seenInsert (seen : List (List Char)) (k : List Char) : List (List Char) :=
  if seen.contains k then seen else seen ++ [k]

/-- `seen_identifiers` initialisation over the already-stored papers
(`snowballing.py:167-172`). -/
def initSeen (papers : List Paper) : List (List Char) :=
  papers.foldl (fun seen p =>
    let seen :=
      if optStrTruthy p.doi then seenInsert seen (doiKey (p.doi.getD ""))
      else seen
    if !p.title.data.isEmpty then seenInsert seen (titleKey p.title)
    else seen) []

/-- `_is_new_paper` from `snowballing.py:339`. -/
def is_new_paper (paper : Paper) (seen : List (List Char)) : Bool :=
  if optStrTruthy paper.doi && seen.contains (doiKey (paper.doi.getD ""))
  then false
  else if !paper.title.data.isEmpty && seen.contains (titleKey paper.title)
  then false
  else true

/-- `_mark_seen` from `snowballing.py:382` (dead code in the iteration loop,
see `processCandidates`, but embedded for completeness). -/
def mark_seen (paper : Paper) (seen : List (List Char)) : List (List Char) :=
  let seen :=
    if optStrTruthy paper.doi then seenInsert seen (doiKey (paper.doi.getD ""))
    else seen
  if !paper.title.data.isEmpty then seenInsert seen (titleKey paper.title)
  else seen

/-- The merge performed on the existing record by `_find_and_merge_duplicate`
(`snowballing.py:365-374`): bump `observation_count` and backfill
`doi`/`abstract`/`year`/`citation_count` where the existing value is falsy
(`None`, `""`, or `0`) and the candidate's is truthy. -/
def mergePaper (existing paper : Paper) : Paper :=
  let e := { existing with observation_count := existing.observation_count + 1 }
  let e := if !optStrTruthy e.doi && optStrTruthy paper.doi then
      { e with doi := paper.doi } else e
  let e := if !optStrTruthy e.abstract && optStrTruthy paper.abstract then
      { e with abstract := paper.abstract } else e
  let e := if !optIntTruthy e.year && optIntTruthy paper.year then
      { e with year := paper.year } else e
  let e := if !optIntTruthy e.citation_count && optIntTruthy paper.citation_count
    then { e with citation_count := paper.citation_count } else e
  e

/-- `_find_and_merge_duplicate` from `snowballing.py:349`: consult the
store's fuzzy oracle; on a match, merge and persist the existing record. -/
def find_and_merge_duplicate (st : StoreState) (paper : Paper) :
    StoreState × Option Paper :=
  match find_duplicate_paper st paper with
  | (st', some existing) =>
    let merged := mergePaper existing paper
    (save_paper st' merged, some merged)
  | (st', none) => (st', none)

/-- One direction's candidate loop inside `run_snowball_iteration`
(`snowballing.py:186-198` / `211-223`), accumulating
`(store, seen_identifiers, merged_papers, discovered_papers, count)`.

For a candidate that is neither in `seen_identifiers` nor matched by the
fuzzy oracle, the source executes
`ref_paper.source_paper_id = source_paper.id`; `models.Paper` declares no
field `source_paper_id` (the declared field is `source_paper_ids`), and
pydantic's `BaseModel.__setattr__` raises
`ValueError: "Paper" object has no field "source_paper_id"` on assignment to
an undeclared field (the model does not set `extra="allow"`).  The exception
is caught by the enclosing `except Exception` for this (frontier paper,
direction) pair, so this function returns at that point: the statements
following the raising line — stamping `snowball_iteration`, appending to
`discovered_papers`, `_mark_seen`, and the count increment — never execute,
and the remaining candidates of the direction are skipped.  Side effects
already made (merges persisted through `save_paper`) are kept, which is why
the accumulators are threaded and returned as they stand. -/
def processCandidates :
    StoreState → List (List Char) → List Paper → List Paper → Nat →
    List Paper → StoreState × List (List Char) × List Paper × List Paper × Nat
  | st, seen, merged, discovered, count, [] => (st, seen, merged, discovered, count)
  | st, seen, merged, discovered, count, cand :: rest =>
    if is_new_paper cand seen then
      match find_and_merge_duplicate st cand with
      | (st', some existing) =>
        processCandidates st' seen (merged ++ [existing]) discovered count rest
      | (st', none) =>
        -- `cand.source = BACKWARD/FORWARD` succeeds (a declared field), then
        -- `cand.source_paper_id = source_paper.id` raises; see above.
        (st', seen, merged, discovered, count)
    else
      match find_and_merge_duplicate st cand with
      | (st', some existing) =>
        processCandidates st' seen (merged ++ [existing]) discovered count rest
      | (st', none) =>
        processCandidates st' seen merged discovered count rest

/-- Accumulator of the expansion loop of `run_snowball_iteration`. -/
structure ExpandAcc where
  st : StoreState
  seen : List (List Char)
  merged : List Paper
  discovered : List Paper
  backward_count : Nat
  forward_count : Nat

/-- Expansion of one frontier paper (`snowballing.py:179-230`): the backward
block (references) then the forward block (citations), each inside its own
`try`/`except` whose handler only logs. -/
def processSource (env : Env) (direction : Direction) (acc : ExpandAcc)
    (source_paper : Paper) : ExpandAcc :=
  let acc :=
    if direction == .backward || direction == .both then
      match env.get_references source_paper with
      | .error _ => acc
      | .ok references =>
        let (st, seen, merged, discovered, bc) :=
          processCandidates acc.st acc.seen acc.merged acc.discovered
            acc.backward_count references
        { acc with st := st, seen := seen, merged := merged,
                   discovered := discovered, backward_count := bc }
    else acc
  if direction == .forward || direction == .both then
    match env.get_citations source_paper with
    | .error _ => acc
    | .ok citations =>
      let (st, seen, merged, discovered, fc) :=
        processCandidates acc.st acc.seen acc.merged acc.discovered
          acc.forward_count citations
      { acc with st := st, seen := seen, merged := merged,
                 discovered := discovered, forward_count := fc }
  else acc

/-- The seed loads of the iteration-0 frontier (`snowballing.py:140-143`);
`none` when some seed id fails to load (the subsequent `p.status` access on
`None` raises an uncaught `AttributeError`, so the store state after a
failed run is not observed). -/
def loadSeeds : StoreState → List String → Option (StoreState × List Paper)
  | st, [] => some (st, [])
  | st, pid :: rest =>
    match load_paper st pid with
    | (st', some p) =>
      match loadSeeds st' rest with
      | none => none
      | some (st'', ps) => some (st'', p :: ps)
    | (_, none) => none

/-- Frontier selection (`snowballing.py:138-148`): at iteration 0 the
non-excluded seeds, afterwards the included papers of the current
generation. -/
def getSourcePapers (st : StoreState) (project : ReviewProject) :
    Option (StoreState × List Paper) :=
  if project.current_iteration == 0 then
    match loadSeeds st project.seed_paper_ids with
    | none => none
    | some (st', all_seeds) =>
      some (st', all_seeds.filter (fun p => p.status != PaperStatus.excluded))
  else
    let (st', papers) := get_papers_by_iteration st project.current_iteration
    some (st', papers.filter (fun p => p.status == PaperStatus.included))

/-- Frontier promotion (`snowballing.py:157-160`): any frontier paper not
already included is set to INCLUDED and saved; expansion then uses the
promoted records. -/
def promoteSources : StoreState → List Paper → StoreState × List Paper
  | st, [] => (st, [])
  | st, p :: rest =>
    if p.status != PaperStatus.included then
      let p' := { p with status := PaperStatus.included }
      let (st'', ps) := promoteSources (save_paper st p') rest
      (st'', p' :: ps)
    else
      let (st'', ps) := promoteSources st rest
      (st'', p :: ps)

/-- Insertion-ordered update of `project.iteration_stats`. -/
def statsInsert (m : List (Int × IterationStats)) (k : Int)
    (v : IterationStats) : List (Int × IterationStats) :=
  if m.any (fun kv => kv.1 == k) then
    m.map (fun kv => if kv.1 == k then (k, v) else kv)
  else m ++ [(k, v)]

/-- Lookup in `project.iteration_stats`. -/
def statsLookup (m : List (Int × IterationStats)) (k : Int) :
    Option IterationStats :=
  (m.find? (fun kv => kv.1 == k)).map (fun kv => kv.2)

/-- `run_snowball_iteration` from `snowballing.py:120`.  `none` is an
uncaught exception (a seed id that fails to load).  `discovered_papers`
stays empty and the direction counters stay 0 on every path — see
`processCandidates` — but the full post-processing (filtering,
auto-exclusion, `save_papers`, stats, project update) is embedded as
written. -/
def run_snowball_iteration (env : Env) (st : StoreState)
    (project : ReviewProject) (direction : Direction) :
    Option (StoreState × ReviewProject × IterResult) :=
  let next_iter := project.current_iteration + 1
  match getSourcePapers st project with
  | none => none
  | some (st1, source_papers) =>
    if source_papers.isEmpty then
      some (st1, project,
        { added := 0, backward := 0, forward := 0, auto_excluded := none,
          for_review := none, merged := none, merged_papers := none })
    else
      let (st2, promoted) := promoteSources st1 source_papers
      let (st3, existing_papers) := load_all_papers st2
      let acc0 : ExpandAcc :=
        { st := st3, seen := initSeen existing_papers, merged := [],
          discovered := [], backward_count := 0, forward_count := 0 }
      let acc := promoted.foldl (processSource env direction) acc0
      let filtered := apply_filters acc.discovered project.filter_criteria
      let auto_excluded := acc.discovered.length - filtered.length
      let discovered := acc.discovered.map (fun p =>
        if filtered.contains p then p
        else
          { p with
            status := PaperStatus.excluded,
            exclusion_type := some ExclusionType.auto,
            notes := "Auto-excluded by filters" })
      let st4 := save_papers acc.st discovered
      let iter_stats : IterationStats :=
        { iteration := next_iter, discovered := (discovered.length : Int),
          backward := (acc.backward_count : Int),
          forward := (acc.forward_count : Int),
          auto_excluded := (auto_excluded : Int),
          for_review := (filtered.length : Int) }
      let project' := { project with
        iteration_stats :=
          statsInsert project.iteration_stats next_iter iter_stats,
        current_iteration := next_iter }
      let st5 := save_project st4 project'
      some (st5, project',
        { added := discovered.length, backward := acc.backward_count,
          forward := acc.forward_count, auto_excluded := some auto_excluded,
          for_review := some filtered.length, merged := some acc.merged.length,
          merged_papers := some acc.merged })

/-- `should_continue_snowballing` from `snowballing.py:490`. -/
def should_continue_snowballing (st : StoreState) (project : ReviewProject) :
    StoreState × Bool :=
  if project.current_iteration == 0 then
    (st, !project.seed_paper_ids.isEmpty)
  else
    let (st', papers) := get_papers_by_iteration st project.current_iteration
    (st', !(papers.filter (fun p => p.status == PaperStatus.included)).isEmpty)

/-- `get_unreviewed_papers` from `snowballing.py:509`: papers with PENDING
**or MAYBE** status. -/
def get_unreviewed_papers (st : StoreState) : StoreState × List Paper :=
  let (st', all_papers) := load_all_papers st
  (st', all_papers.filter (fun p =>
    p.status == PaperStatus.pending || p.status == PaperStatus.maybe))

/-- The blocked-iteration message built by `can_start_iteration`
(`snowballing.py:542-548`). -/
def mkBlockedReason (pending_count maybe_count : Nat) : String :=
  let parts : List String :=
    (if pending_count ≠ 0 then [toString pending_count ++ " pending"] else [])
      ++ (if maybe_count ≠ 0 then [toString maybe_count ++ " maybe"] else [])
  "Cannot start new iteration: " ++ String.intercalate " and " parts ++
    " papers need review"

/-- `can_start_iteration` from `snowballing.py:524`. -/
def can_start_iteration (st : StoreState) (project : ReviewProject) :
    StoreState × Bool × String :=
  let (st1, unreviewed) := get_unreviewed_papers st
  if !unreviewed.isEmpty then
    let pending_count :=
      (unreviewed.filter (fun p => p.status == PaperStatus.pending)).length
    let maybe_count :=
      (unreviewed.filter (fun p => p.status == PaperStatus.maybe)).length
    (st1, false, mkBlockedReason pending_count maybe_count)
  else
    match should_continue_snowballing st1 project with
    | (st2, false) => (st2, false, "No included papers to snowball from")
    | (st2, true) => (st2, true, "")

/-- The mutation `update_paper_review` applies to the loaded paper
(`snowballing.py:423-435`): set status and notes, replace tags when a
non-empty list is given, set `exclusion_type = MANUAL` when excluding a
paper that is not auto-excluded, clear it when un-excluding. -/
def applyReview (paper : Paper) (status : PaperStatus) (notes : String)
    (tags : Option (List String)) : Paper :=
  let paper := { paper with status := status, notes := notes }
  let paper :=
    match tags with
    | some ts => if !ts.isEmpty then { paper with tags := ts } else paper
    | none => paper
  let paper :=
    if status == PaperStatus.excluded &&
        paper.exclusion_type != some ExclusionType.auto then
      { paper with exclusion_type := some ExclusionType.manual }
    else paper
  if status != PaperStatus.excluded then
    { paper with exclusion_type := none }
  else paper

/-- `_update_iteration_review_stats` from `snowballing.py:445` (the source
calls it with the already-mutated paper, so `paper.exclusion_type` below is
the post-review value). -/
def update_iteration_review_stats (project : ReviewProject) (paper : Paper)
    (old_status new_status : PaperStatus) : ReviewProject :=
  match statsLookup project.iteration_stats paper.snowball_iteration with
  | none => project
  | some stats0 =>
    let stats :=
      if old_status == PaperStatus.included then
        { stats0 with manual_included := max 0 (stats0.manual_included - 1) }
      else if old_status == PaperStatus.excluded &&
          paper.exclusion_type == some ExclusionType.manual then
        { stats0 with manual_excluded := max 0 (stats0.manual_excluded - 1) }
      else if old_status == PaperStatus.maybe then
        { stats0 with manual_maybe := max 0 (stats0.manual_maybe - 1) }
      else stats0
    let stats :=
      if new_status == PaperStatus.included then
        { stats with manual_included := stats.manual_included + 1 }
      else if new_status == PaperStatus.excluded then
        if paper.exclusion_type != some ExclusionType.auto then
          { stats with manual_excluded := stats.manual_excluded + 1 }
        else stats
      else if new_status == PaperStatus.maybe then
        { stats with manual_maybe := stats.manual_maybe + 1 }
      else stats
    let stats :=
      if old_status == PaperStatus.pending &&
          new_status != PaperStatus.pending then
        { stats with reviewed := stats.reviewed + 1 }
      else if old_status != PaperStatus.pending &&
          new_status == PaperStatus.pending then
        { stats with reviewed := max 0 (stats.reviewed - 1) }
      else stats
    { project with iteration_stats :=
        statsInsert project.iteration_stats paper.snowball_iteration stats }

/-- `update_paper_review` from `snowballing.py:404`. -/
def update_paper_review (st : StoreState) (paper_id : String)
    (status : PaperStatus) (notes : String) (tags : Option (List String))
    (project : Option ReviewProject) : StoreState × Option ReviewProject :=
  match load_paper st paper_id with
  | (st1, none) => (st1, project)
  | (st1, some paper) =>
    let old_status := paper.status
    let paper' := applyReview paper status notes tags
    let st2 := save_paper st1 paper'
    match project with
    | some proj =>
      if (statsLookup proj.iteration_stats paper'.snowball_iteration).isSome
      then
        let proj' := update_iteration_review_stats proj paper' old_status status
        (save_project st2 proj', some proj')
      else (st2, some proj)
    | none => (st2, none)

/-! ## Spec-side definitions and statement vocabulary -/

/-- The author-name normalization **as worded by the spec** ("a name
containing a comma normalizes to its last comma-separated token, lower-cased,
and a name without a comma normalizes to its last whitespace-separated token,
lower-cased"), written only to be compared against the source's
`normalize_author_name`. -/
def specNormalizeAuthorName (name : String) : String :=
  if name.data.contains ',' then
    ⟨pyLower ((pySplitOn ',' name.data).getLastD [])⟩
  else
    ⟨pyLower ((pySplitWs name.data).getLastD [])⟩

/-- The set (duplicate-free list) of spec-normalized last names of an author
list. -/
def specAuthorNames (authors : List Author) : List (List Char) :=
  (authors.map (fun a => (specNormalizeAuthorName a.name).data)).dedup

/-- Jaccard similarity of the sets denoted by two duplicate-free lists
(`0/0 = 0` by the rational-division convention). -/
def jaccardNames (ns1 ns2 : List (List Char)) : ℚ :=
  (interCard ns1 ns2 : ℚ) / (unionCard ns1 ns2 : ℚ)

/-- The spec's `exclusion_type` invariant: a paper is EXCLUDED iff its
`exclusion_type` is AUTO or MANUAL, and any other status carries no
`exclusion_type`. -/
def exclusionInvariant (p : Paper) : Bool :=
  if p.status == PaperStatus.excluded then
    p.exclusion_type == some ExclusionType.auto ||
      p.exclusion_type == some ExclusionType.manual
  else p.exclusion_type == none

/-- `needle` occurs as a substring of `hay`. -/
def mentions (needle hay : String) : Prop :=
  ∃ pre post : List Char, hay.data = pre ++ needle.data ++ post

/-- Two store states that agree on everything except (possibly) the
read cache: same write queue, same disk files, same index file, same
project file. -/
def sameButCache (a b : StoreState) : Prop :=
  a.queue = b.queue ∧ a.disk = b.disk ∧ a.index = b.index ∧
    a.project_file = b.project_file

/-! ## Concrete scenarios

Closed instances used by the code-bug and counterexample theorems, named
after the claim that uses them. -/

/-- Spec scenario 1 (claim C3): the seed paper `S`. -/
def c3Seed : Paper :=
  { id := "S", doi := some "10.1/s", title := "Seed Paper",
    status := .pending, source := .seed, snowball_iteration := 0 }

/-- Spec scenario 1 (claim C3): the reference `R` returned by the backward
provider. -/
def c3Ref : Paper :=
  { id := "R", doi := some "10.1/r", title := "Deep Learning for X",
    year := some 2021, source := .backward }

/-- Spec scenario 1 (claim C3): a store holding exactly the seed, flushed
and with a populated cache. -/
def c3Store : StoreState :=
  { cache := some [("S", c3Seed)], queue := [], disk := [("S", c3Seed)],
    index := [], project_file := none }

/-- Spec scenario 1 (claim C3): a fresh project with seed `S` and empty
filter criteria. -/
def c3Proj : ReviewProject :=
  { name := "demo", seed_paper_ids := ["S"], current_iteration := 0 }

/-- Spec scenario 1 (claim C3): the mocked providers — backward returns
`[R]` for the seed, forward returns `[]`. -/
def c3Env : Env :=
  { get_references := fun p => .ok (if p.id == "S" then [c3Ref] else []),
    get_citations := fun _ => .ok [] }

/-- Spec scenario 3 (claim C1): frontier seed `S1`. -/
def c1SeedA : Paper :=
  { id := "S1", doi := some "10.1/s1", title := "Seed One",
    status := .pending, source := .seed, snowball_iteration := 0 }

/-- Spec scenario 3 (claim C1): frontier seed `S2`. -/
def c1SeedB : Paper :=
  { id := "S2", doi := some "10.1/s2", title := "Seed Two",
    status := .pending, source := .seed, snowball_iteration := 0 }

/-- Spec scenario 3 (claim C1): the backward candidate from `S1` with the
shared DOI `10.1/dup`. -/
def c1DupBack : Paper :=
  { id := "P1", doi := some "10.1/dup", title := "Duplicate Work",
    source := .backward }

/-- Spec scenario 3 (claim C1): the forward candidate from `S2` with the
same DOI `10.1/dup`. -/
def c1DupFwd : Paper :=
  { id := "P2", doi := some "10.1/dup", title := "Duplicate Work",
    source := .forward }

/-- Spec scenario 3 (claim C1): a flushed store holding the two seeds. -/
def c1Store : StoreState :=
  { cache := some [("S1", c1SeedA), ("S2", c1SeedB)], queue := [],
    disk := [("S1", c1SeedA), ("S2", c1SeedB)], index := [],
    project_file := none }

/-- Spec scenario 3 (claim C1): the project with both seeds in the
frontier. -/
def c1Proj : ReviewProject :=
  { name := "demo", seed_paper_ids := ["S1", "S2"], current_iteration := 0 }

/-- Spec scenario 3 (claim C1): backward provider for `S1` and forward
provider for `S2` each return one candidate carrying `doi="10.1/dup"`. -/
def c1Env : Env :=
  { get_references := fun p => .ok (if p.id == "S1" then [c1DupBack] else []),
    get_citations := fun p => .ok (if p.id == "S2" then [c1DupFwd] else []) }

/-- Claim C2 counterexample: an INCLUDED paper at generation 0. -/
def c2Included : Paper :=
  { id := "I", title := "Included Paper", status := .included,
    source := .seed, snowball_iteration := 0 }

/-- Claim C2 counterexample: a MAYBE paper (not PENDING). -/
def c2Maybe : Paper :=
  { id := "M", title := "Maybe Paper", status := .maybe,
    source := .backward, snowball_iteration := 1 }

/-- Claim C2 counterexample: store holding the two papers, cache
populated. -/
def c2Store : StoreState :=
  { cache := some [("I", c2Included), ("M", c2Maybe)], queue := [],
    disk := [("I", c2Included), ("M", c2Maybe)], index := [],
    project_file := none }

/-- Claim C2 counterexample: a project at iteration 0 with a seed, so the
frontier is eligible. -/
def c2Proj : ReviewProject :=
  { name := "demo", seed_paper_ids := ["I"], current_iteration := 0 }

/-- Claim C2 witness: a single PENDING paper. -/
def c2wPending : Paper :=
  { id := "P", title := "Pending Paper", status := .pending,
    source := .seed, snowball_iteration := 0 }

/-- Claim C2 witness: store holding only the pending paper. -/
def c2wStore : StoreState :=
  { cache := some [("P", c2wPending)], queue := [],
    disk := [("P", c2wPending)], index := [], project_file := none }

/-- Claim C2 witness: project whose only seed is the pending paper. -/
def c2wProj : ReviewProject :=
  { name := "demo", seed_paper_ids := ["P"], current_iteration := 0 }

/-!
# Theorems

First the bridging and helper lemmas, then one theorem per claim (with its
witness or counterexample where required).
-/

/-! ## Bridging lemmas: the cross-multiplied threshold tests -/

/-- The cross-multiplied threshold test is the comparison of the rational
similarity value against `thNum/thDen`. -/
theorem fracLt_iff (f : Option (Nat × Nat)) (thNum thDen : Nat)
    (hD : 0 < thDen) :
    fracLt f thNum thDen = true ↔ fracVal f < (thNum : ℚ) / (thDen : ℚ) := by
  cases f with
  | none =>
    simp only [fracLt, fracVal, decide_eq_true_eq]
    rw [lt_div_iff₀ (by exact_mod_cast hD)]
    constructor
    · intro h
      have : (0 : ℚ) < thNum := by exact_mod_cast h
      simpa using this
    · intro h
      have : (0 : ℚ) < thNum := by simpa using h
      exact_mod_cast this
  | some p =>
    obtain ⟨i, u⟩ := p
    simp only [fracLt, fracVal]
    by_cases hu : 0 < u
    · simp only [hu, if_pos]
      rw [div_lt_div_iff₀ (by exact_mod_cast hu) (by exact_mod_cast hD)]
      constructor
      · intro h
        have h' : i * thDen < thNum * u := by simpa using h
        exact_mod_cast h'
      · intro h
        have h' : i * thDen < thNum * u := by exact_mod_cast h
        simpa using h'
    · simp only [if_neg hu, decide_eq_true_eq]
      rw [lt_div_iff₀ (by exact_mod_cast hD)]
      constructor
      · intro h
        have : (0 : ℚ) < thNum := by exact_mod_cast h
        simpa using this
      · intro h
        have : (0 : ℚ) < thNum := by simpa using h
        exact_mod_cast this

/-- The title-threshold test inside `papers_are_duplicates` is exactly
`title_similarity < 0.85`. -/
theorem titleSim_lt_iff (t1 t2 : String) :
    fracLt (titleSimFrac t1 t2) 85 100 = true ↔
      title_similarity t1 t2 < (85 : ℚ) / 100 :=
  fracLt_iff _ 85 100 (by norm_num)

/-- The author-threshold test inside `papers_are_duplicates` is exactly
`authors_similarity < 0.3`. -/
theorem authorsSim_lt_iff (a1 a2 : List Author) :
    fracLt (authorsSimFrac a1 a2) 3 10 = true ↔
      authors_similarity a1 a2 < (3 : ℚ) / 10 :=
  fracLt_iff _ 3 10 (by norm_num)

/-! ## Helper lemmas -/

/-- Appending strings appends their character lists. -/
theorem str_data_append (s t : String) : (s ++ t).data = s.data ++ t.data := rfl

/-- Membership gives a positive `contains` test. -/
theorem contains_of_mem {a : List Char} {l : List (List Char)}
    (h : a ∈ l) : l.contains a = true := by
  simpa using h

/-- The intersection of a set with itself has the full cardinality. -/
theorem interCard_self (xs : List (List Char)) : interCard xs xs = xs.length := by
  unfold interCard
  rw [List.filter_eq_self.mpr]
  intro a ha
  exact contains_of_mem ha

/-- The union of a duplicate-free set with itself has the full cardinality. -/
theorem unionCard_self (xs : List (List Char)) (h : xs.Nodup) :
    unionCard xs xs = xs.length := by
  unfold unionCard
  rw [← List.card_toFinset, List.toFinset_append, Finset.union_self,
    List.toFinset_card_of_nodup h]

/-- The word set of a title is duplicate-free. -/
theorem titleWords_nodup (t : String) : (titleWords t).Nodup :=
  (List.nodup_dedup _).filter _

/-- The normalized-name set of an author list is duplicate-free. -/
theorem authorNames_nodup (a : List Author) : (authorNames a).Nodup :=
  (List.nodup_dedup _).filter _

/-- A similarity of `n/n` with `n > 0` is never below a threshold `thN/thD` with `thN ≤ thD`. -/
theorem fracLt_diag_false (n thN thD : Nat) (hn : n ≠ 0) (hle : thN ≤ thD) :
    fracLt (some (n, n)) thN thD = false := by
  simp only [fracLt]
  have : ¬ (n * thD < thN * n) := by
    rw [Nat.mul_comm thN n]
    exact Nat.not_lt.mpr (Nat.mul_le_mul_left n hle)
  simp [Nat.pos_of_ne_zero hn, this]

/-- The intersection of two sets is at most as large as their union. -/
theorem interCard_le_unionCard (xs ys : List (List Char)) (hxs : xs.Nodup) :
    interCard xs ys ≤ unionCard xs ys := by
  unfold interCard unionCard
  rw [← List.card_toFinset]
  rw [← List.toFinset_card_of_nodup (hxs.filter _)]
  apply Finset.card_le_card
  intro a ha
  rw [List.mem_toFinset] at ha ⊢
  exact List.mem_append_left ys (List.mem_of_mem_filter ha)

/-- Comparing a title against itself yields the full word set over itself. -/
theorem titleSimFrac_self (t : String) (ht : ¬t.data.isEmpty)
    (hw : titleWords t ≠ []) :
    titleSimFrac t t = some ((titleWords t).length, (titleWords t).length) := by
  unfold titleSimFrac
  simp only [ht, Bool.or_self, if_neg, Bool.not_eq_true,
    List.isEmpty_iff, hw, interCard_self, unionCard_self _ (titleWords_nodup t)]
  simp [List.isEmpty_iff, hw, ht]

/-- Comparing an author list against itself yields the full name set over itself. -/
theorem authorsSimFrac_self (a : List Author) (ha : ¬a.isEmpty = true)
    (hn : authorNames a ≠ []) :
    authorsSimFrac a a =
      some ((authorNames a).length, (authorNames a).length) := by
  unfold authorsSimFrac
  simp [List.isEmpty_iff, hn, ha, interCard_self,
    unionCard_self _ (authorNames_nodup a)]

/-- An empty author list yields no normalized names. -/
theorem authorNames_nil : authorNames [] = [] := rfl

/-- Intersecting with the empty set is empty. -/
theorem interCard_nil_right (xs : List (List Char)) : interCard xs [] = 0 := by
  simp [interCard]

/-- After an in-slot dictionary update the key is found with the new value. -/
theorem find_in_replaced (m : List (String × Paper)) (k : String) (v : Paper)
    (h : m.any (fun kv => kv.1 == k) = true) :
    ((m.map (fun kv => if kv.1 == k then (k, v) else kv)).find?
      (fun kv => kv.1 == k)) = some (k, v) := by
  induction m with
  | nil => simp at h
  | cons kv t ih =>
    by_cases hk : (kv.1 == k) = true
    · rw [List.map_cons, if_pos hk, List.find?_cons_of_pos]
      exact beq_self_eq_true k
    · have ht : t.any (fun kv => kv.1 == k) = true := by
        rcases List.any_eq_true.mp h with ⟨x, hx, hxk⟩
        rcases List.mem_cons.mp hx with rfl | hxt
        · exact absurd hxk hk
        · exact List.any_eq_true.mpr ⟨x, hxt, hxk⟩
      rw [List.map_cons, if_neg hk, List.find?_cons_of_neg]
      · exact ih ht
      · simpa using hk

/-- After appending a fresh key it is found with its value. -/
theorem find_in_appended (m : List (String × Paper)) (k : String) (v : Paper)
    (h : m.any (fun kv => kv.1 == k) = false) :
    ((m ++ [(k, v)]).find? (fun kv => kv.1 == k)) = some (k, v) := by
  induction m with
  | nil =>
    rw [List.nil_append, List.find?_cons_of_pos]
    exact beq_self_eq_true k
  | cons kv t ih =>
    rw [List.any_cons, Bool.or_eq_false_iff] at h
    rw [List.cons_append, List.find?_cons_of_neg]
    · exact ih h.2
    · simpa using h.1

/-- A dictionary lookup immediately after an insert of the same key returns the inserted value. -/
theorem dictLookup_dictInsert (m : List (String × Paper)) (k : String)
    (v : Paper) : dictLookup (dictInsert m k v) k = some v := by
  unfold dictInsert dictLookup
  by_cases h : m.any (fun kv => kv.1 == k) = true
  · rw [if_pos h, find_in_replaced m k v h]
    rfl
  · rw [if_neg h, find_in_appended m k v (Bool.eq_false_iff.mpr h)]
    rfl

/-- The inserted value is among the dictionary values. -/
theorem mem_values_dictInsert (m : List (String × Paper)) (k : String)
    (v : Paper) : v ∈ (dictInsert m k v).map (fun kv => kv.2) := by
  unfold dictInsert
  by_cases h : m.any (fun kv => kv.1 == k) = true
  · rw [if_pos h]
    rcases List.any_eq_true.mp h with ⟨kv, hmem, hk⟩
    refine List.mem_map.mpr ⟨(k, v), List.mem_map.mpr ⟨kv, hmem, ?_⟩, rfl⟩
    rw [if_pos hk]
  · rw [if_neg h]
    exact List.mem_map.mpr ⟨(k, v), List.mem_append_right m (by simp), rfl⟩

/-- `" and "` interposed between two parts. -/
theorem intercalate_pair (a b : String) :
    String.intercalate " and " [a, b] = a ++ " and " ++ b := rfl

/-- Intercalating a one-element list is that element. -/
theorem intercalate_single (a : String) :
    String.intercalate " and " [a] = a := rfl

/-- Whenever the pending count is non-zero, the blocked-iteration message contains the word `pending`. -/
theorem mkBlockedReason_mentions_pending (pc mc : Nat) (h : pc ≠ 0) :
    mentions "pending" (mkBlockedReason pc mc) := by
  unfold mkBlockedReason mentions
  have hsp : (" pending").data = [' '] ++ ("pending").data := by decide
  by_cases hm : mc ≠ 0
  · rw [if_pos h, if_pos hm, List.singleton_append]
    simp only [intercalate_pair]
    refine ⟨("Cannot start new iteration: ").data ++ (toString pc).data ++ [' '],
      (" and ").data ++ (toString mc).data ++ (" maybe").data ++
        (" papers need review").data, ?_⟩
    simp [str_data_append, hsp, List.append_assoc]
  · rw [if_pos h, if_neg hm, List.append_nil]
    simp only [intercalate_single]
    refine ⟨("Cannot start new iteration: ").data ++ (toString pc).data ++ [' '],
      (" papers need review").data, ?_⟩
    simp [str_data_append, hsp, List.append_assoc]

/-- `sameButCache` is reflexive. -/
theorem sameButCache_refl (st : StoreState) : sameButCache st st :=
  ⟨rfl, rfl, rfl, rfl⟩

/-- `sameButCache` is transitive. -/
theorem sameButCache_trans {a b c : StoreState} (h1 : sameButCache a b)
    (h2 : sameButCache b c) : sameButCache a c :=
  ⟨h1.1.trans h2.1, h1.2.1.trans h2.2.1, h1.2.2.1.trans h2.2.2.1,
    h1.2.2.2.trans h2.2.2.2⟩

/-- `load_paper` touches only the cache. -/
theorem load_paper_sameButCache (st : StoreState) (pid : String) :
    sameButCache (load_paper st pid).1 st := by
  unfold load_paper
  rcases hc : st.cache with _ | m
  · rcases hd : dictLookup st.disk pid with _ | p <;>
      simp [hc, hd, sameButCache]
  · rcases hl : dictLookup m pid with _ | p
    · rcases hd : dictLookup st.disk pid with _ | q <;>
        simp [hc, hl, hd, sameButCache]
    · simp [hc, hl, sameButCache]

/-- `load_all_papers` touches only the cache. -/
theorem load_all_papers_sameButCache (st : StoreState) :
    sameButCache (load_all_papers st).1 st := by
  unfold load_all_papers
  rcases hc : st.cache with _ | m <;> simp [hc, sameButCache]

/-- Loading the seed papers touches only the cache. -/
theorem loadSeeds_sameButCache :
    ∀ (ids : List String) (st st' : StoreState) (ps : List Paper),
      loadSeeds st ids = some (st', ps) → sameButCache st' st := by
  intro ids
  induction ids with
  | nil =>
    intro st st' ps h
    simp only [loadSeeds, Option.some.injEq, Prod.mk.injEq] at h
    rw [← h.1]
    exact sameButCache_refl st
  | cons pid rest ih =>
    intro st st' ps h
    unfold loadSeeds at h
    rcases hlp : load_paper st pid with ⟨st1, op⟩
    rw [hlp] at h
    rcases op with _ | p
    · simp at h
    · dsimp only at h
      rcases hrec : loadSeeds st1 rest with _ | ⟨st2, ps2⟩
      · rw [hrec] at h; simp at h
      · rw [hrec] at h
        simp only [Option.some.injEq, Prod.mk.injEq] at h
        rw [← h.1]
        refine sameButCache_trans (ih st1 st2 ps2 hrec) ?_
        have := load_paper_sameButCache st pid
        rw [hlp] at this
        exact this

/-- `get_papers_by_iteration` returns the store produced by `load_all_papers`. -/
theorem get_papers_by_iteration_fst (st : StoreState) (i : Int) :
    (get_papers_by_iteration st i).1 = (load_all_papers st).1 := by
  unfold get_papers_by_iteration
  rcases h : load_all_papers st with ⟨st1, papers⟩
  simp

/-- Frontier selection touches only the cache. -/
theorem getSourcePapers_sameButCache (st : StoreState) (proj : ReviewProject)
    (st' : StoreState) (ps : List Paper)
    (h : getSourcePapers st proj = some (st', ps)) : sameButCache st' st := by
  unfold getSourcePapers at h
  by_cases hz : (proj.current_iteration == 0) = true
  · rw [if_pos hz] at h
    rcases hls : loadSeeds st proj.seed_paper_ids with _ | ⟨st1, seeds⟩
    · rw [hls] at h; simp at h
    · rw [hls] at h
      simp only [Option.some.injEq, Prod.mk.injEq] at h
      rw [← h.1]
      exact loadSeeds_sameButCache _ st st1 seeds hls
  · rw [if_neg hz] at h
    rcases hgp : get_papers_by_iteration st proj.current_iteration
      with ⟨st1, papers⟩
    rw [hgp] at h
    simp only [Option.some.injEq, Prod.mk.injEq] at h
    rw [← h.1]
    have h1 : st1 = (load_all_papers st).1 := by
      have := get_papers_by_iteration_fst st proj.current_iteration
      rw [hgp] at this
      exact this
    rw [h1]
    exact load_all_papers_sameButCache st

/-! ## Claim theorems -/

/-- C1 (code bug): in spec scenario 3 — backward provider for `S1` and
forward provider for `S2` each return a candidate with the identical DOI
`10.1/dup` — the claim expects one persisted record for that DOI,
`stats.added == 1`, and one merged entry with `observation_count == 2`.
The code instead raises on the first new candidate (`source_paper_id` is not
a `Paper` field), loses both candidates, and returns `added == 0` with an
empty merged list; no record with that DOI is persisted anywhere (queue,
disk, or cache).  The repository test
`test_run_snowball_iteration_deduplicates` expects `added == 1` for this
shape of run, so the code contradicts its own test suite. -/
theorem run_iteration_dup_doi_scenario :
    (run_snowball_iteration c1Env c1Store c1Proj .both).map
      (fun r => r.2.2.added) = some 0 ∧
    (run_snowball_iteration c1Env c1Store c1Proj .both).map
      (fun r => r.2.2.merged_papers) = some (some []) ∧
    (run_snowball_iteration c1Env c1Store c1Proj .both).map
      (fun r => (r.1.queue ++ r.1.disk.map Prod.snd ++
          (r.1.cache.getD []).map Prod.snd).countP
            (fun p => p.doi == some "10.1/dup")) = some 0 :=
  ⟨by decide, by decide, by decide⟩

/-- C2 counterexample: a store with one INCLUDED and one MAYBE paper (no
PENDING anywhere) and an eligible frontier — the claim as stated predicts
`(True, "")`, but `can_start_iteration` also blocks on MAYBE and returns
`(False, "Cannot start new iteration: 1 maybe papers need review")`. -/
theorem can_start_blocked_by_maybe :
    ((load_all_papers c2Store).2.filter
      (fun p => p.status == PaperStatus.pending)).length = 0 ∧
    (should_continue_snowballing (load_all_papers c2Store).1 c2Proj).2 = true ∧
    (can_start_iteration c2Store c2Proj).2 =
      (false, "Cannot start new iteration: 1 maybe papers need review") :=
  ⟨by decide, by decide, by decide⟩

/-- C2 (amended): `can_start_iteration` returns `(False, reason)` whenever at
least one paper is PENDING **or MAYBE**, with the reason built from the
pending/maybe counts (and mentioning `pending` whenever the pending count is
non-zero); with every paper decided it returns `(False, ...)` exactly when
there is no eligible frontier (`should_continue_snowballing` is false) and
`(True, "")` otherwise. -/
theorem can_start_iteration_gate (st : StoreState) (proj : ReviewProject) :
    ((((load_all_papers st).2.filter
          (fun p => p.status == PaperStatus.pending)).length ≠ 0 ∨
      ((load_all_papers st).2.filter
          (fun p => p.status == PaperStatus.maybe)).length ≠ 0) →
      (can_start_iteration st proj).2 =
        (false, mkBlockedReason
          ((load_all_papers st).2.filter
            (fun p => p.status == PaperStatus.pending)).length
          ((load_all_papers st).2.filter
            (fun p => p.status == PaperStatus.maybe)).length)) ∧
    (((load_all_papers st).2.filter
        (fun p => p.status == PaperStatus.pending)).length ≠ 0 →
      mentions "pending" (mkBlockedReason
        ((load_all_papers st).2.filter
          (fun p => p.status == PaperStatus.pending)).length
        ((load_all_papers st).2.filter
          (fun p => p.status == PaperStatus.maybe)).length)) ∧
    (((load_all_papers st).2.filter
        (fun p => p.status == PaperStatus.pending)).length = 0 →
      ((load_all_papers st).2.filter
        (fun p => p.status == PaperStatus.maybe)).length = 0 →
      (should_continue_snowballing (load_all_papers st).1 proj).2 = false →
      (can_start_iteration st proj).2 =
        (false, "No included papers to snowball from")) ∧
    (((load_all_papers st).2.filter
        (fun p => p.status == PaperStatus.pending)).length = 0 →
      ((load_all_papers st).2.filter
        (fun p => p.status == PaperStatus.maybe)).length = 0 →
      (should_continue_snowballing (load_all_papers st).1 proj).2 = true →
      (can_start_iteration st proj).2 = (true, "")) := by
  rcases hls : load_all_papers st with ⟨st1, papers⟩
  have hffp : ((papers.filter (fun p => p.status == PaperStatus.pending ||
      p.status == PaperStatus.maybe)).filter
        (fun p => p.status == PaperStatus.pending)) =
      papers.filter (fun p => p.status == PaperStatus.pending) := by
    rw [List.filter_filter]
    apply List.filter_congr
    intro p _
    cases hs : (p.status == PaperStatus.pending) <;> simp [hs]
  have hffm : ((papers.filter (fun p => p.status == PaperStatus.pending ||
      p.status == PaperStatus.maybe)).filter
        (fun p => p.status == PaperStatus.maybe)) =
      papers.filter (fun p => p.status == PaperStatus.maybe) := by
    rw [List.filter_filter]
    apply List.filter_congr
    intro p _
    cases hs : (p.status == PaperStatus.maybe) <;> simp [hs]
  have hun : (papers.filter (fun p => p.status == PaperStatus.pending ||
      p.status == PaperStatus.maybe)) = [] ↔
      (papers.filter (fun p => p.status == PaperStatus.pending)).length = 0 ∧
      (papers.filter (fun p => p.status == PaperStatus.maybe)).length = 0 := by
    simp only [List.length_eq_zero, List.filter_eq_nil_iff]
    constructor
    · intro hall
      constructor <;> intro a ha hcon <;>
        exact hall a ha (by simp [hcon])
    · rintro ⟨hp, hm⟩ a ha hcon
      rcases Bool.or_eq_true_iff.mp hcon with hc | hc
      · exact hp a ha hc
      · exact hm a ha hc
  refine ⟨?_, fun hp => mkBlockedReason_mentions_pending _ _ hp, ?_, ?_⟩
  · intro hor
    have hne : (papers.filter (fun p => p.status == PaperStatus.pending ||
        p.status == PaperStatus.maybe)) ≠ [] := by
      intro hnil
      rcases hor with hp | hm
      · exact hp (hun.mp hnil).1
      · exact hm (hun.mp hnil).2
    simp only [can_start_iteration, get_unreviewed_papers, hls]
    rw [if_pos (by simpa [List.isEmpty_iff] using hne)]
    rw [hffp, hffm]
  · intro hp hm hsc
    have hnil : (papers.filter (fun p => p.status == PaperStatus.pending ||
        p.status == PaperStatus.maybe)) = [] := hun.mpr ⟨hp, hm⟩
    simp only [can_start_iteration, get_unreviewed_papers, hls]
    rw [if_neg (by simp [List.isEmpty_iff, hnil])]
    rcases hsc2 : should_continue_snowballing st1 proj with ⟨st2, b⟩
    have : b = false := by
      have := congrArg Prod.snd hsc2
      simp at this
      rw [← this, hsc]
    rw [this]
  · intro hp hm hsc
    have hnil : (papers.filter (fun p => p.status == PaperStatus.pending ||
        p.status == PaperStatus.maybe)) = [] := hun.mpr ⟨hp, hm⟩
    simp only [can_start_iteration, get_unreviewed_papers, hls]
    rw [if_neg (by simp [List.isEmpty_iff, hnil])]
    rcases hsc2 : should_continue_snowballing st1 proj with ⟨st2, b⟩
    have : b = true := by
      have := congrArg Prod.snd hsc2
      simp at this
      rw [← this, hsc]
    rw [this]

/-- C2 witness: a store with exactly one PENDING paper is blocked with a reason that mentions `pending`. -/
theorem can_start_gate_witness :
    (can_start_iteration c2wStore c2wProj).2 = (false, mkBlockedReason 1 0) ∧
    mentions "pending" (mkBlockedReason 1 0) := by
  have h := can_start_iteration_gate c2wStore c2wProj
  have e1 : ((load_all_papers c2wStore).2.filter
      (fun p => p.status == PaperStatus.pending)).length = 1 := by decide
  have e0 : ((load_all_papers c2wStore).2.filter
      (fun p => p.status == PaperStatus.maybe)).length = 0 := by decide
  constructor
  · have h1 := h.1 (Or.inl (by rw [e1]; exact one_ne_zero))
    rw [e1, e0] at h1
    exact h1
  · have h2 := h.2.1 (by rw [e1]; exact one_ne_zero)
    rw [e1, e0] at h2
    exact h2

/-- C3 (code bug): in the literal one-seed scenario (spec scenario 1: seed `S`
pending, backward provider returns `R`, forward returns nothing, empty
criteria) the claim expects `added == 1`, `backward == 1`,
`R.source_paper_ids == [S.id]`, `R.status == PENDING`.  The code assigns
`ref_paper.source_paper_id` — not a declared `Paper` field — so pydantic
raises, the handler swallows it, and the run returns `added == 0`,
`backward == 0`, persists no record for `R`, records an all-zero
`IterationStats`, while still promoting `S` to INCLUDED and advancing
`current_iteration` to 1.  The repository test
`test_run_snowball_iteration_from_seeds` (expecting `added == 2` in the same
shape of run) contradicts the code. -/
theorem run_iteration_seed_scenario :
    (run_snowball_iteration c3Env c3Store c3Proj .both).map
      (fun r => r.2.2) = some
        { added := 0, backward := 0, forward := 0, auto_excluded := some 0,
          for_review := some 0, merged := some 0, merged_papers := some [] } ∧
    (run_snowball_iteration c3Env c3Store c3Proj .both).map
      (fun r => r.2.1.current_iteration) = some 1 ∧
    (run_snowball_iteration c3Env c3Store c3Proj .both).map
      (fun r => statsLookup r.2.1.iteration_stats 1) = some (some
        { iteration := 1, discovered := 0, backward := 0, forward := 0,
          auto_excluded := 0, for_review := 0 }) ∧
    (run_snowball_iteration c3Env c3Store c3Proj .both).map
      (fun r => r.1.queue.map (fun p => (p.id, p.status))) =
        some [("S", PaperStatus.included)] ∧
    (run_snowball_iteration c3Env c3Store c3Proj .both).map
      (fun r => (r.1.queue ++ r.1.disk.map Prod.snd ++
          (r.1.cache.getD []).map Prod.snd).countP
            (fun p => p.id == "R" || p.doi == some "10.1/r")) = some 0 :=
  ⟨by decide, by decide, by decide, by decide, by decide⟩

/-- C4 counterexample: an existing paper with `citation_count == 0` (a
non-null value) is overwritten by the candidate value 57 during a merge,
because the code tests Python truthiness (`not existing.citation_count`)
rather than null-ness. -/
theorem merge_overwrites_zero_citation_count :
    (mergePaper
      { id := "e", title := "Existing Work", citation_count := some 0,
        source := .seed }
      { id := "c", title := "Existing Work", citation_count := some 57,
        source := .backward }).citation_count = some 57 ∧
    ({ id := "e", title := "Existing Work", citation_count := some 0,
        source := .seed : Paper }).citation_count ≠ none := by
  constructor <;> decide

/-- C4 (amended): a merge increments `observation_count` by exactly 1 and
backfills `doi`/`abstract`/`year`/`citation_count` from the candidate exactly
where the existing value is falsy (null, empty string, or zero) and the
candidate value is truthy; truthy existing values — but not a
`citation_count` of 0 — are left unchanged, and every other field of the
existing record is untouched. -/
theorem merge_backfill (e c : Paper) :
    (mergePaper e c).observation_count = e.observation_count + 1 ∧
    (optStrTruthy e.doi = true → (mergePaper e c).doi = e.doi) ∧
    (optStrTruthy e.doi = false → optStrTruthy c.doi = true →
      (mergePaper e c).doi = c.doi) ∧
    (optStrTruthy e.doi = false → optStrTruthy c.doi = false →
      (mergePaper e c).doi = e.doi) ∧
    (optStrTruthy e.abstract = true → (mergePaper e c).abstract = e.abstract) ∧
    (optStrTruthy e.abstract = false → optStrTruthy c.abstract = true →
      (mergePaper e c).abstract = c.abstract) ∧
    (optStrTruthy e.abstract = false → optStrTruthy c.abstract = false →
      (mergePaper e c).abstract = e.abstract) ∧
    (optIntTruthy e.year = true → (mergePaper e c).year = e.year) ∧
    (optIntTruthy e.year = false → optIntTruthy c.year = true →
      (mergePaper e c).year = c.year) ∧
    (optIntTruthy e.year = false → optIntTruthy c.year = false →
      (mergePaper e c).year = e.year) ∧
    (optIntTruthy e.citation_count = true →
      (mergePaper e c).citation_count = e.citation_count) ∧
    (optIntTruthy e.citation_count = false →
      optIntTruthy c.citation_count = true →
      (mergePaper e c).citation_count = c.citation_count) ∧
    (optIntTruthy e.citation_count = false →
      optIntTruthy c.citation_count = false →
      (mergePaper e c).citation_count = e.citation_count) ∧
    (mergePaper e c).id = e.id ∧
    (mergePaper e c).title = e.title ∧
    (mergePaper e c).arxiv_id = e.arxiv_id ∧
    (mergePaper e c).authors = e.authors ∧
    (mergePaper e c).status = e.status ∧
    (mergePaper e c).source = e.source ∧
    (mergePaper e c).source_paper_ids = e.source_paper_ids ∧
    (mergePaper e c).snowball_iteration = e.snowball_iteration ∧
    (mergePaper e c).exclusion_type = e.exclusion_type ∧
    (mergePaper e c).notes = e.notes ∧
    (mergePaper e c).tags = e.tags := by
  simp only [mergePaper]
  split_ifs <;> simp_all

/-- C4 witness: a merge with both DOIs present keeps the existing DOI. -/
theorem merge_backfill_witness :
    (mergePaper
      { id := "e", doi := some "10.1/e", title := "Kept Title",
        year := some 2020, source := .seed }
      { id := "c", doi := some "10.1/c", title := "Other Title",
        year := some 2021, abstract := some "text", source := .backward }
    ).doi = some "10.1/e" :=
  (merge_backfill _ _).2.1 (by decide)

/-- C5 counterexample: on a fresh store (cache not yet initialised),
`save_paper(p)` only queues the write — `load_paper(p.id)` falls through to
disk and returns `None`, and `load_all_papers()` does not include `p`, until
the background write completes. -/
theorem save_paper_not_visible_on_fresh_store :
    (load_paper
      (save_paper
        { cache := none, queue := [], disk := [], index := [],
          project_file := none }
        { id := "p", title := "Fresh Paper", source := .seed })
      "p").2 = none ∧
    ((load_all_papers
      (save_paper
        { cache := none, queue := [], disk := [], index := [],
          project_file := none }
        { id := "p", title := "Fresh Paper", source := .seed })).2.contains
      { id := "p", title := "Fresh Paper", source := .seed }) = false := by
  constructor <;> decide

/-- C5 (amended): once the in-memory cache has been initialised (`cache = some
m`), `save_paper(p)` is immediately visible: a subsequent `load_paper(p.id)`
returns `p` and `load_all_papers()` includes `p`, regardless of whether the
background disk write for `p` has completed. -/
theorem save_paper_read_your_write (st : StoreState)
    (m : List (String × Paper)) (p : Paper) (h : st.cache = some m) :
    (load_paper (save_paper st p) p.id).2 = some p ∧
    p ∈ (load_all_papers (save_paper st p)).2 := by
  have hc : (save_paper st p).cache = some (dictInsert m p.id p) := by
    rw [save_paper, h]
    rfl
  constructor
  · simp [load_paper, hc, dictLookup_dictInsert]
  · simp only [load_all_papers, hc]
    exact mem_values_dictInsert m p.id p

/-- C5 witness: the read-your-write guarantee at a concrete store with an initialised (empty) cache. -/
theorem save_paper_read_your_write_witness :
    (load_paper
      (save_paper
        { cache := some [], queue := [], disk := [], index := [],
          project_file := none }
        { id := "p", title := "Fresh Paper", source := .seed })
      "p").2 =
      some { id := "p", title := "Fresh Paper", source := .seed } ∧
    ({ id := "p", title := "Fresh Paper", source := .seed : Paper }) ∈
      (load_all_papers
        (save_paper
          { cache := some [], queue := [], disk := [], index := [],
            project_file := none }
          { id := "p", title := "Fresh Paper", source := .seed })).2 :=
  save_paper_read_your_write _ [] _ rfl

/-- C6: when both papers carry a (truthy) DOI, `papers_are_duplicates` is
decided by the case-insensitive DOI comparison alone — equal DOIs give
`True`, different DOIs give `False` — with no fall-through to the arXiv or
title/year/author rules (in particular a perfect title match cannot override
a DOI mismatch). -/
theorem are_duplicates_doi_decides (a b : Paper)
    (ha : optStrTruthy a.doi = true) (hb : optStrTruthy b.doi = true) :
    (pyLower (a.doi.getD "").data = pyLower (b.doi.getD "").data →
      papers_are_duplicates a b = true) ∧
    (pyLower (a.doi.getD "").data ≠ pyLower (b.doi.getD "").data →
      papers_are_duplicates a b = false) := by
  constructor <;> intro h <;> simp [papers_are_duplicates, ha, hb, h]

/-- C6 witness: two papers whose DOIs differ only by case are duplicates despite unrelated titles. -/
theorem are_duplicates_doi_decides_witness :
    papers_are_duplicates
      { id := "a", doi := some "10.1234/ABC", title := "Graph Mining",
        source := .seed }
      { id := "b", doi := some "10.1234/abc", title := "Totally Different",
        source := .seed } = true :=
  (are_duplicates_doi_decides _ _ (by decide) (by decide)).1 (by decide)

/-- C7 counterexample: the paper with the non-empty title `"the"` (a
stop word) is not a duplicate of itself — `title_similarity` filters the
word away, yields 0.0, and the 0.85 threshold rejects the pair. -/
theorem are_duplicates_not_reflexive :
    ({ id := "p", title := "the", source := .seed : Paper}).title ≠ "" ∧
    papers_are_duplicates
      { id := "p", title := "the", source := .seed }
      { id := "p", title := "the", source := .seed } = false := by
  constructor
  · decide
  · decide

/-- C7 (amended): `are_duplicates(p, p) == True` for every paper `p` with a
non-empty title, provided `p` has a truthy DOI or arXiv id, or its title
contains at least one non-stop-word token and its author list is empty or
yields at least one non-empty normalized name; a paper whose title consists
only of stop words (and that has no identifier) is not self-duplicate. -/
theorem are_duplicates_refl (p : Paper) (ht : p.title.data ≠ [])
    (h : optStrTruthy p.doi = true ∨ optStrTruthy p.arxiv_id = true ∨
      (titleWords p.title ≠ [] ∧
        (p.authors = [] ∨ authorNames p.authors ≠ []))) :
    papers_are_duplicates p p = true := by
  by_cases hd : optStrTruthy p.doi
  · simp [papers_are_duplicates, hd]
  by_cases harx : optStrTruthy p.arxiv_id
  · simp [papers_are_duplicates, hd, harx]
  have h3 := (h.resolve_left (by simp [hd])).resolve_left (by simp [harx])
  obtain ⟨hw, hauth⟩ := h3
  have htb : ¬p.title.data.isEmpty := by simp [List.isEmpty_iff, ht]
  have hlen : (titleWords p.title).length ≠ 0 := by
    simpa [List.length_eq_zero] using hw
  have hfrac := titleSimFrac_self p.title htb hw
  have hflt := fracLt_diag_false (titleWords p.title).length 85 100 hlen
    (by norm_num)
  simp only [papers_are_duplicates, hd, harx, Bool.false_and, Bool.and_self,
    if_neg, Bool.not_eq_true, htb, Bool.or_self, hfrac, hflt,
    Bool.false_eq_true, sub_self, Int.natAbs_zero]
  have hyear : ¬((0 : Nat) > 1) := by norm_num
  rcases hauth with hempty | hnames
  · simp [hempty, hfrac, hflt, hyear]
  · have hae : ¬p.authors.isEmpty = true := by
      intro hcontra
      rw [List.isEmpty_iff.mp hcontra] at hnames
      simp [authorNames] at hnames
    have hafrac := authorsSimFrac_self p.authors hae hnames
    have halen : (authorNames p.authors).length ≠ 0 := by
      simpa [List.length_eq_zero] using hnames
    have haflt := fracLt_diag_false (authorNames p.authors).length 3 10 halen
      (by norm_num)
    simp [hfrac, hflt, hyear, hafrac, haflt]

/-- C7 witness: reflexivity at a paper with an ordinary title and no identifiers. -/
theorem are_duplicates_refl_witness :
    papers_are_duplicates
      { id := "p", title := "Graph Neural Networks", source := .seed }
      { id := "p", title := "Graph Neural Networks", source := .seed } = true :=
  are_duplicates_refl _ (by decide) (by right; right; exact ⟨by decide, .inl rfl⟩)

/-- C8 counterexample: for the author lists `["Doe,John"]` and
`["John"]`, `authors_similarity` returns 0, while the Jaccard similarity
over the normalization worded by the spec (last comma-separated token) is 1:
the code takes the part **before the first comma**, not the last token. -/
theorem authors_similarity_spec_mismatch :
    authors_similarity [⟨"Doe,John"⟩] [⟨"John"⟩] = 0 ∧
    jaccardNames (specAuthorNames [⟨"Doe,John"⟩])
      (specAuthorNames [⟨"John"⟩]) = 1 := by
  constructor
  · rw [authors_similarity,
      (by decide : authorsSimFrac [⟨"Doe,John"⟩] [⟨"John"⟩] = some (0, 2))]
    norm_num [fracVal]
  · rw [jaccardNames,
      (by decide : interCard (specAuthorNames [⟨"Doe,John"⟩])
        (specAuthorNames [⟨"John"⟩]) = 1),
      (by decide : unionCard (specAuthorNames [⟨"Doe,John"⟩])
        (specAuthorNames [⟨"John"⟩]) = 1)]
    norm_num

/-- C8 (amended): `authors_similarity` always lies in `[0, 1]` and equals the
Jaccard similarity of the two sets of code-normalized last names (the part
before the first comma, stripped and lower-cased, when the name contains a
comma; else the last whitespace-separated token, lower-cased), after
discarding empty normalized names, with the `0/0 = 0` convention for the
degenerate cases. -/
theorem authors_similarity_jaccard (a1 a2 : List Author) :
    0 ≤ authors_similarity a1 a2 ∧ authors_similarity a1 a2 ≤ 1 ∧
    authors_similarity a1 a2 =
      jaccardNames (authorNames a1) (authorNames a2) := by
  unfold authors_similarity authorsSimFrac jaccardNames
  by_cases h1 : a1.isEmpty
  · have : authorNames a1 = [] := by
      rw [List.isEmpty_iff.mp h1]; rfl
    simp [h1, fracVal, this, interCard]
  by_cases h2 : a2.isEmpty
  · have : authorNames a2 = [] := by
      rw [List.isEmpty_iff.mp h2]; rfl
    simp [h1, h2, fracVal, this, interCard_nil_right]
  by_cases hn1 : (authorNames a1).isEmpty
  · rw [List.isEmpty_iff] at hn1
    simp [h1, h2, hn1, fracVal, interCard]
  by_cases hn2 : (authorNames a2).isEmpty
  · rw [List.isEmpty_iff] at hn2
    simp [h1, h2, hn1, hn2, fracVal, interCard_nil_right]
  · have hu : 0 < unionCard (authorNames a1) (authorNames a2) := by
      rw [List.isEmpty_iff] at hn1
      unfold unionCard
      rw [List.length_pos, Ne, List.dedup_eq_nil]
      simp [hn1]
    have huq : (0 : ℚ) < (unionCard (authorNames a1) (authorNames a2) : ℚ) := by
      exact_mod_cast hu
    have hle : interCard (authorNames a1) (authorNames a2) ≤
        unionCard (authorNames a1) (authorNames a2) :=
      interCard_le_unionCard _ _ (authorNames_nodup a1)
    simp only [h1, h2, hn1, hn2, Bool.or_self, if_neg, Bool.false_eq_true,
      not_false_eq_true, fracVal, hu, if_pos]
    refine ⟨by positivity, ?_, trivial⟩
    rw [div_le_one huq]
    exact_mod_cast hle

/-- C9 counterexample: the Store operation `update_paper_status` never touches
`exclusion_type` — un-excluding a manually excluded paper leaves
`exclusion_type == MANUAL` on an INCLUDED paper, violating the invariant
that the claim asserts for every status-changing core operation. -/
theorem update_paper_status_breaks_invariant :
    exclusionInvariant
      { id := "e", title := "Excluded Paper", status := .excluded,
        exclusion_type := some .manual, source := .seed } = true ∧
    ((update_paper_status
        { cache := some [("e",
            { id := "e", title := "Excluded Paper", status := .excluded,
              exclusion_type := some .manual, source := .seed })],
          queue := [], disk := [], index := [], project_file := none }
        "e" PaperStatus.included "reconsidered").queue.map
      (fun p => (p.status, p.exclusion_type, exclusionInvariant p))) =
      [(PaperStatus.included, some ExclusionType.manual, false)] := by
  constructor <;> decide

/-- C9 (amended): the engine path `update_paper_review` always establishes the
invariant on the paper it persists — EXCLUDED papers carry AUTO or MANUAL,
all other statuses carry no `exclusion_type`; the Store shortcut
`update_paper_status` does not maintain it (see the counterexample). -/
theorem review_establishes_invariant (paper : Paper) (status : PaperStatus)
    (notes : String) (tags : Option (List String)) :
    exclusionInvariant (applyReview paper status notes tags) = true := by
  rcases tags with _ | ts
  · cases status <;>
      by_cases ha : paper.exclusion_type = some ExclusionType.auto <;>
      simp [applyReview, exclusionInvariant, ha]
  · cases status <;>
      by_cases ha : paper.exclusion_type = some ExclusionType.auto <;>
      by_cases ht : ts = [] <;>
      simp [applyReview, exclusionInvariant, ha, ht]

/-- C10: when frontier selection finds no eligible paper,
`run_snowball_iteration` returns `{added: 0, backward: 0, forward: 0}` with
no `auto_excluded`/`for_review`/`merged` entries, the project value is
returned unchanged (`current_iteration` not incremented, no `IterationStats`
entry), and nothing is written: the write queue, the disk, the index file
and the project file are exactly as before (only the read cache may have
been populated by the lookups). -/
theorem run_iteration_no_frontier (env : Env) (st : StoreState)
    (proj : ReviewProject) (dir : Direction) (st' : StoreState)
    (h : getSourcePapers st proj = some (st', [])) :
    run_snowball_iteration env st proj dir =
      some (st', proj,
        { added := 0, backward := 0, forward := 0, auto_excluded := none,
          for_review := none, merged := none, merged_papers := none }) ∧
    st'.queue = st.queue ∧ st'.disk = st.disk ∧ st'.index = st.index ∧
    st'.project_file = st.project_file := by
  have hs := getSourcePapers_sameButCache st proj st' [] h
  refine ⟨?_, hs.1, hs.2.1, hs.2.2.1, hs.2.2.2⟩
  simp [run_snowball_iteration, h]

/-- C10 witness: the empty-frontier result at a concrete empty store and seedless project. -/
theorem run_iteration_no_frontier_witness :
    run_snowball_iteration
      { get_references := fun _ => .ok [], get_citations := fun _ => .ok [] }
      { cache := some [], queue := [], disk := [], index := [],
        project_file := none }
      { name := "empty" } .both =
      some
        ({ cache := some [], queue := [], disk := [], index := [],
           project_file := none },
         { name := "empty" },
         { added := 0, backward := 0, forward := 0, auto_excluded := none,
           for_review := none, merged := none, merged_papers := none }) :=
  (run_iteration_no_frontier _ _ _ _ _ (by decide)).1

end Snowball
